import Mathlib

/-!
Shallow embedding of the worker-pool orchestration layer of the
judicial-form scraper (src/app.py, src/worker.py, src/expressvpn.py,
src/run_form.py).

The asyncio runtime schedules cooperatively: a task runs uninterrupted
between suspension points (`await`s that actually yield).  We therefore
model an execution as a sequence of atomic segments ("steps"), each
corresponding to one maximal await-to-await run of one task.  The
nondeterministic scheduler is represented by an explicit script of
actions; `runScript` executes a script and also returns the flattened
list of observable events the steps emitted.
-/

/-- A work item, as built in app.py:94-96:
`(str(document_number_start + i), str(year))`. -/
abbrev WorkItem := String × String

/-- The two scrape-failure classes of worker.py: the classified
`TimeoutError` (line 226) and the catch-all `except Exception` (line 232). -/
inductive FailKind
  | timeout
  | unknown
  deriving DecidableEq, Repr

/-- Observable events emitted by steps.  Worker events carry the worker
index. -/
inductive Ev
  | deq (i : ℕ) (x : WorkItem)        -- `await input_queue.get()` returns
  | progress (i : ℕ)                  -- `progress_bar_event.set()`
  | settle (i : ℕ)                    -- `input_queue.task_done()`
  | requeue (i : ℕ) (x : WorkItem)    -- `await input_queue.put((document_number, year))`
  | signal (i : ℕ)                    -- `await cancelled_workers_queue.put(True)`
  | fail (i : ℕ) (k : FailKind)       -- the scrape attempt raised
  | closeBrowser (i : ℕ)              -- `await browser.close()`
  | dereg (i : ℕ)                     -- `decrease_num_workers()`
  | reraise (i : ℕ)                   -- `raise asyncio.CancelledError`
  | gatePulse                         -- `sync_workers_event.set(); sync_workers_event.clear()`
  | reset (c : ℕ) (t : ℤ)             -- sync_workers re-reads count and threshold
  | rotStart                          -- `rotate_vpn` begins (first connect attempt issued)
  | rotEnd                            -- `rotate_vpn` returns (connect succeeded)
  | drained                           -- `await input_queue.join()` resolves
  deriving DecidableEq, Repr

/-- State of `asyncio.Queue` as used for `input_queue`: the backing store,
the `_unfinished_tasks` counter, and a latch recording that the
`_finished` event fired while the orchestrator's `join()` was parked on
it.  `Event.set` resolves the waiter's future immediately and a later
`clear` (performed by `put`) cannot un-resolve it, so the latch is
never reset. -/
structure AsyncQueue where
  pending : List WorkItem
  unfinished : ℕ
  joinWoken : Bool
  deriving DecidableEq, Repr

/-- `Queue.put` / `put_nowait`: append and increment the unfinished count. -/
def AsyncQueue.putOp (q : AsyncQueue) (x : WorkItem) : AsyncQueue :=
  { q with pending := q.pending ++ [x], unfinished := q.unfinished + 1 }

/-- `Queue.task_done`: decrement the unfinished count; when it reaches
zero the `_finished` event is set, waking a parked `join()`. -/
def AsyncQueue.taskDoneOp (q : AsyncQueue) : AsyncQueue :=
  { q with unfinished := q.unfinished - 1,
           joinWoken := q.joinWoken || decide (q.unfinished = 1) }

/-- Control position of one worker task (worker.py), identifying the
suspension point it is parked at. -/
inductive WPos
  | launching   -- inside `p.firefox.launch` (worker.py:83), before the loop
  | atGate      -- parked at `await sync_workers_event.wait()` (worker.py:87)
  | atGet       -- parked at `await input_queue.get()` (worker.py:88)
  | midScrape   -- item dequeued, somewhere inside the scrape attempt
  | exited      -- the task finished (cancellation re-raised)
  deriving DecidableEq, Repr

/-- Per-worker locals of worker.py: `document_number`/`year` (one Option
for the pair; they are assigned together and never cleared), the
`task_done` flag (None before the first loop iteration), and whether the
worker's parked gate wait has already been woken by a pulse. -/
structure WorkerSt where
  pos : WPos
  docYear : Option WorkItem
  taskDoneFlag : Option Bool
  gateWoken : Bool
  deriving DecidableEq, Repr

/-- Locals of sync_workers (worker.py:50-52): `count` and `threshold`.
Python ints may go negative, hence ℤ. -/
structure CtrlSt where
  count : ℤ
  threshold : ℤ
  deriving DecidableEq, Repr

/-- `math.ceil(c * (num/den))` with the failure ratio given as the
rational num/den (worker.py:52: `math.ceil(count * settings.threshold)`). -/
def ceilMul (c num den : ℕ) : ℕ := (c * num + den - 1) / den

/-- Static configuration: the failure ratio `settings.threshold` as a
rational num/den. -/
structure Cfg where
  num : ℕ
  den : ℕ
  deriving DecidableEq, Repr

/-- The shared state of the orchestration layer: the input queue, the
worker tasks, the sync_workers locals, the `_num_workers` global, the
size of `cancelled_workers_queue`, and bookkeeping counters (total
deliveries = completed `get()`s, total settle calls = `task_done()`
calls) plus whether the orchestrator's `join()` has resolved. -/
structure Sys where
  q : AsyncQueue
  workers : List WorkerSt
  ctrl : CtrlSt
  live : ℕ
  cancelledSignals : ℕ
  deliveries : ℕ
  settleCalls : ℕ
  joined : Bool
  deriving DecidableEq, Repr

/-- Initial state built by app.py main: items enqueued with `put_nowait`
(lines 94-96), `num_workers` workers spawned, sync_workers started with
`count = get_num_workers()` and `threshold = ceil(count * ratio)`
(worker.py:51-52), and the orchestrator parked on `input_queue.join()`
(line 135). -/
def initSys (cfg : Cfg) (items : List WorkItem) (numWorkers : ℕ) : Sys :=
  { q := { pending := items, unfinished := items.length, joinWoken := false },
    workers := List.replicate numWorkers
      { pos := WPos.launching, docYear := none, taskDoneFlag := none, gateWoken := false },
    ctrl := { count := (numWorkers : ℤ), threshold := (ceilMul numWorkers cfg.num cfg.den : ℤ) },
    live := numWorkers,
    cancelledSignals := 0,
    deliveries := 0,
    settleCalls := 0,
    joined := false }

/-- Scheduler actions: which task runs its next atomic segment, and for a
worker mid-scrape, how the external scrape attempt resolves. -/
inductive Act
  | launch (i : ℕ)            -- worker i finishes `firefox.launch`, enters the loop
  | gatePass (i : ℕ)          -- worker i resumes from the gate wait
  | getItem (i : ℕ)           -- worker i's `input_queue.get()` returns
  | success (i : ℕ)           -- worker i's scrape attempt succeeds
  | failWith (i : ℕ) (k : FailKind)  -- worker i's scrape attempt raises
  | cancel (i : ℕ)            -- worker i is cancelled at its suspension point
  | poll                      -- one iteration of sync_workers' inner while (worker.py:54-63)
  | rot                       -- sync_workers exits the inner while and rotates (worker.py:64-66)
  | joinResolve               -- the orchestrator's `await input_queue.join()` resumes
  deriving DecidableEq, Repr

/-- The gate pulse `set(); clear()` (worker.py:55-56) resolves the wait
future of every worker currently parked at the gate; there is no
suspension between `set` and `clear`, so nobody ever observes the event
value as true. -/
def wakeGate (w : WorkerSt) : WorkerSt :=
  if w.pos = WPos.atGate then { w with gateWoken := true } else w

/-- One atomic segment of one task, translated from the source.  Returns
`none` when the action is not enabled in the given state. -/
def stepFn (cfg : Cfg) (s : Sys) : Act → Option (Sys × List Ev)
  | Act.launch i =>
      match s.workers[i]? with
      | none => none
      | some w =>
        if w.pos = WPos.launching then
          -- loop entry executes `task_done = False` (worker.py:86) and parks
          -- at the gate wait
          some ({ s with workers :=
            s.workers.set i { w with pos := WPos.atGate, taskDoneFlag := some false } }, [])
        else none
  | Act.gatePass i =>
      match s.workers[i]? with
      | none => none
      | some w =>
        if w.pos = WPos.atGate ∧ w.gateWoken = true then
          some ({ s with workers :=
            s.workers.set i { w with pos := WPos.atGet, gateWoken := false } }, [])
        else none
  | Act.getItem i =>
      match s.workers[i]?, s.q.pending with
      | none, _ => none
      | some _, [] => none
      | some w, x :: rest =>
        if w.pos = WPos.atGet then
          some ({ s with
            q := { s.q with pending := rest },
            workers := s.workers.set i { w with pos := WPos.midScrape, docYear := some x },
            deliveries := s.deliveries + 1 }, [Ev.deq i x])
        else none
  | Act.success i =>
      match s.workers[i]? with
      | none => none
      | some w =>
        if w.pos = WPos.midScrape then
          -- worker.py:222-224 followed without suspension by the loop head:
          -- progress signal, task_done, task_done = True, then task_done = False
          -- and park at the gate again
          some ({ s with
            q := s.q.taskDoneOp,
            workers := s.workers.set i { w with pos := WPos.atGate, taskDoneFlag := some false },
            settleCalls := s.settleCalls + 1 }, [Ev.progress i, Ev.settle i])
        else none
  | Act.failWith i k =>
      match s.workers[i]? with
      | none => none
      | some w =>
        match w.docYear with
        | none => none
        | some x =>
          if w.pos = WPos.midScrape then
            -- worker.py:226-237: both handlers run task_done, then put the same
            -- item back, then signal cancelled_workers_queue; none of these
            -- suspends, and the loop continues
            some ({ s with
              q := (s.q.taskDoneOp).putOp x,
              workers := s.workers.set i { w with pos := WPos.atGate, taskDoneFlag := some false },
              settleCalls := s.settleCalls + 1,
              cancelledSignals := s.cancelledSignals + 1 },
              [Ev.fail i k, Ev.settle i, Ev.requeue i x, Ev.signal i])
          else none
  | Act.cancel i =>
      match s.workers[i]? with
      | none => none
      | some w =>
        if w.pos = WPos.exited then none
        else
          -- worker.py:239-248: the CancelledError handler
          match w.taskDoneFlag, w.docYear with
          | some false, some x =>
            some ({ s with
              q := (s.q.taskDoneOp).putOp x,
              workers := s.workers.set i { w with pos := WPos.exited },
              settleCalls := s.settleCalls + 1,
              cancelledSignals := s.cancelledSignals + 1,
              live := s.live - 1 },
              [Ev.settle i, Ev.requeue i x, Ev.signal i,
               Ev.closeBrowser i, Ev.dereg i, Ev.reraise i])
          | _, _ =>
            some ({ s with
              workers := s.workers.set i { w with pos := WPos.exited },
              live := s.live - 1 },
              [Ev.closeBrowser i, Ev.dereg i, Ev.reraise i])
  | Act.poll =>
      -- worker.py:54-63, one iteration of `while count >= threshold`
      if s.ctrl.threshold ≤ s.ctrl.count then
        if 0 < s.cancelledSignals then
          some ({ s with
            workers := s.workers.map wakeGate,
            ctrl := { s.ctrl with count := s.ctrl.count - 1 },
            cancelledSignals := s.cancelledSignals - 1 }, [Ev.gatePulse])
        else
          some ({ s with workers := s.workers.map wakeGate }, [Ev.gatePulse])
      else none
  | Act.rot =>
      -- worker.py:64-66: the inner while has exited (count < threshold);
      -- count and threshold are re-read, then `await vpn_api.rotate_vpn()`
      -- runs; rotate_vpn (expressvpn.py:25-38) contains no await, so the
      -- whole rotation is one atomic segment
      if s.ctrl.count < s.ctrl.threshold then
        some ({ s with ctrl :=
          { count := (s.live : ℤ),
            threshold := (ceilMul s.live cfg.num cfg.den : ℤ) } },
          [Ev.reset s.live (ceilMul s.live cfg.num cfg.den : ℤ), Ev.rotStart, Ev.rotEnd])
      else none
  | Act.joinResolve =>
      if s.joined = false ∧ (s.q.unfinished = 0 ∨ s.q.joinWoken = true) then
        some ({ s with joined := true }, [Ev.drained])
      else none

/-- Run a scheduler script, accumulating emitted events. -/
def runScript (cfg : Cfg) (s : Sys) : List Act → Option (Sys × List Ev)
  | [] => some (s, [])
  | a :: rest =>
      match stepFn cfg s a with
      | none => none
      | some (s1, evs1) =>
          match runScript cfg s1 rest with
          | none => none
          | some (s2, evs2) => some (s2, evs1 ++ evs2)

/-- The item generator of app.py:94-96:
`for year in range(settings.since, now + 1): for i in range(document_range):
 input_queue.put_nowait((str(document_number_start + i), str(year)))`. -/
def genItems (since nowY docRange docStart : ℕ) : List WorkItem :=
  (List.range' since (nowY + 1 - since)).flatMap fun y =>
    (List.range docRange).map fun i => (toString (docStart + i), toString y)

/-- `AsyncExpressVpnApi.rotate_vpn` (expressvpn.py:25-38), with the
outcome of the k-th `self.api.connect` attempt given by an oracle and the
unbounded `while not passed` loop run with explicit fuel.  `some k` means
the call returned after attempt `k` succeeded; every failed attempt is
swallowed by the `except Exception` handler (which rebuilds the api
object) and retried; no failure is ever surfaced to the caller. -/
def rotateVpn (oracle : ℕ → Bool) : ℕ → ℕ → Option ℕ
  | 0, _ => none
  | fuel + 1, attempt =>
      if oracle attempt then some attempt
      else rotateVpn oracle fuel (attempt + 1)

/-- The ordered toplevel actions of an orchestrator entry point, at the
granularity the claims need. -/
inductive MainAct
  | initVpn        -- run_form.py only: initialize_VPN
  | writeHeader    -- write_header_to_csv
  | enqueueItems   -- the put_nowait loop
  | rotateFirst    -- the awaited first identity rotation
  | spawnWorker    -- create one worker task
  | spawnSync      -- create the sync_workers / respawn_workers task
  | spawnProgress  -- create the progress-bar task
  | awaitJoin      -- await the queue join(s)
  | cancelAll      -- cancel every task and gather
  deriving DecidableEq, Repr

/-- app.py main (lines 83-141): header, enqueue, `await vpn_api.rotate_vpn()`
("First rotation", line 99), then the workers, the synchronizer, the
progress bar, the join, the teardown. -/
def appMainActions (numWorkers : ℕ) (withProgress : Bool) : List MainAct :=
  [MainAct.writeHeader, MainAct.enqueueItems, MainAct.rotateFirst]
    ++ List.replicate numWorkers MainAct.spawnWorker
    ++ [MainAct.spawnSync]
    ++ (if withProgress then [MainAct.spawnProgress] else [])
    ++ [MainAct.awaitJoin, MainAct.cancelAll]

/-- run_form.py main (lines 360-424): initialize_VPN then rotate_VPN
(line 366) before the header, the enqueue loop, and any task spawn. -/
def runFormMainActions (numWorkers : ℕ) : List MainAct :=
  [MainAct.initVpn, MainAct.rotateFirst, MainAct.writeHeader, MainAct.enqueueItems,
   MainAct.spawnSync]
    ++ List.replicate numWorkers MainAct.spawnWorker
    ++ [MainAct.spawnProgress, MainAct.awaitJoin, MainAct.cancelAll]

/-- Scan an event list with a rotation-in-flight flag; `false` iff some
dequeue, scrape outcome, or gate pulse occurs strictly between a
`rotStart` and the matching `rotEnd`. -/
def scanRotOk : Bool → List Ev → Bool
  | _, [] => true
  | _, Ev.rotStart :: rest => scanRotOk true rest
  | _, Ev.rotEnd :: rest => scanRotOk false rest
  | r, Ev.deq _ _ :: rest => !r && scanRotOk r rest
  | r, Ev.fail _ _ :: rest => !r && scanRotOk r rest
  | r, Ev.settle _ :: rest => !r && scanRotOk r rest
  | r, Ev.requeue _ _ :: rest => !r && scanRotOk r rest
  | r, Ev.gatePulse :: rest => !r && scanRotOk r rest
  | r, _ :: rest => scanRotOk r rest

/-- Does an event mark the reset of sync_workers' count/threshold? -/
def isReset : Ev → Bool
  | Ev.reset _ _ => true
  | _ => false

/-- Does an event mark the completion of a rotation? -/
def isRotEnd : Ev → Bool
  | Ev.rotEnd => true
  | _ => false

/-- The configuration of the spec's running example: failure ratio 0.6. -/
def cfgJF : Cfg := { num := 3, den := 5 }

/-- One worker, one generated item, the scrape attempt times out, then the
orchestrator's parked `join()` resumes. -/
def c1Script : List Act :=
  [Act.launch 0, Act.poll, Act.gatePass 0, Act.getItem 0,
   Act.failWith 0 FailKind.timeout, Act.joinResolve]

def c1Final : Sys :=
  { q := { pending := [("100", "2020")], unfinished := 1, joinWoken := true },
    workers := [{ pos := WPos.atGate, docYear := some ("100", "2020"),
                  taskDoneFlag := some false, gateWoken := false }],
    ctrl := { count := 1, threshold := 1 },
    live := 1, cancelledSignals := 1, deliveries := 1, settleCalls := 1,
    joined := true }

def c1Evs : List Ev :=
  [Ev.gatePulse, Ev.deq 0 ("100", "2020"), Ev.fail 0 FailKind.timeout,
   Ev.settle 0, Ev.requeue 0 ("100", "2020"), Ev.signal 0, Ev.drained]

/-- One worker, two generated items; the worker settles the first item
successfully, then is cancelled while parked at the gate wait. -/
def c3Script : List Act :=
  [Act.launch 0, Act.poll, Act.gatePass 0, Act.getItem 0, Act.success 0,
   Act.cancel 0]

def c3Final : Sys :=
  { q := { pending := [("101", "2020"), ("100", "2020")], unfinished := 1,
           joinWoken := true },
    workers := [{ pos := WPos.exited, docYear := some ("100", "2020"),
                  taskDoneFlag := some false, gateWoken := false }],
    ctrl := { count := 1, threshold := 1 },
    live := 0, cancelledSignals := 1, deliveries := 1, settleCalls := 2,
    joined := false }

def c3Evs : List Ev :=
  [Ev.gatePulse, Ev.deq 0 ("100", "2020"), Ev.progress 0, Ev.settle 0,
   Ev.settle 0, Ev.requeue 0 ("100", "2020"), Ev.signal 0,
   Ev.closeBrowser 0, Ev.dereg 0, Ev.reraise 0]

/-- One worker whose scrape attempt fails, the controller consumes the
failure signal (count drops below threshold), then rotates. -/
def c6Script : List Act :=
  [Act.launch 0, Act.poll, Act.gatePass 0, Act.getItem 0,
   Act.failWith 0 FailKind.timeout, Act.poll, Act.rot]

def c6Final : Sys :=
  { q := { pending := [("100", "2020")], unfinished := 1, joinWoken := true },
    workers := [{ pos := WPos.atGate, docYear := some ("100", "2020"),
                  taskDoneFlag := some false, gateWoken := true }],
    ctrl := { count := 1, threshold := 1 },
    live := 1, cancelledSignals := 0, deliveries := 1, settleCalls := 1,
    joined := false }

def c6Evs : List Ev :=
  [Ev.gatePulse, Ev.deq 0 ("100", "2020"), Ev.fail 0 FailKind.timeout,
   Ev.settle 0, Ev.requeue 0 ("100", "2020"), Ev.signal 0, Ev.gatePulse,
   Ev.reset 1 1, Ev.rotStart, Ev.rotEnd]

/-- Same shape of run as `c6Script`, used to exercise the rotation window
scan on a concrete trace. -/
def c5Script : List Act :=
  [Act.launch 0, Act.poll, Act.gatePass 0, Act.getItem 0,
   Act.failWith 0 FailKind.timeout, Act.poll, Act.rot]

/-- Controller-focused state for the spec's threshold example: five live
workers, threshold ceil(5 * 0.6) = 3, three failure signals queued. -/
def c4Init : Sys :=
  { q := { pending := [], unfinished := 0, joinWoken := false },
    workers := [],
    ctrl := { count := 5, threshold := 3 },
    live := 5, cancelledSignals := 3, deliveries := 0, settleCalls := 0,
    joined := false }

def c4Final : Sys :=
  { q := { pending := [], unfinished := 0, joinWoken := false },
    workers := [],
    ctrl := { count := 5, threshold := 3 },
    live := 5, cancelledSignals := 0, deliveries := 0, settleCalls := 0,
    joined := false }

def c4Evs : List Ev :=
  [Ev.gatePulse, Ev.gatePulse, Ev.gatePulse, Ev.reset 5 3, Ev.rotStart,
   Ev.rotEnd]

/-- A worker mid-scrape holding an unsettled item, about to be cancelled. -/
def c2Init : Sys :=
  { q := { pending := [], unfinished := 2, joinWoken := false },
    workers := [{ pos := WPos.midScrape, docYear := some ("100", "2020"),
                  taskDoneFlag := some false, gateWoken := false }],
    ctrl := { count := 1, threshold := 1 },
    live := 1, cancelledSignals := 0, deliveries := 1, settleCalls := 0,
    joined := false }

/-- A worker mid-scrape holding an item, about to see a scrape failure. -/
def c8Init : Sys :=
  { q := { pending := [("101", "2020")], unfinished := 2, joinWoken := false },
    workers := [{ pos := WPos.midScrape, docYear := some ("100", "2020"),
                  taskDoneFlag := some false, gateWoken := false }],
    ctrl := { count := 1, threshold := 1 },
    live := 1, cancelledSignals := 0, deliveries := 1, settleCalls := 0,
    joined := false }

/-- Event-class predicates used to state uniqueness of handler actions. -/
def isRequeueEv : Ev → Bool
  | Ev.requeue _ _ => true
  | _ => false

def isSettleEv : Ev → Bool
  | Ev.settle _ => true
  | _ => false

def isDeqEv : Ev → Bool
  | Ev.deq _ _ => true
  | _ => false

/-- The worker record of `c2Init`. -/
def c2Worker : WorkerSt :=
  { pos := WPos.midScrape, docYear := some ("100", "2020"),
    taskDoneFlag := some false, gateWoken := false }

def c2CancelFinal : Sys :=
  { q := { pending := [("100", "2020")], unfinished := 2, joinWoken := false },
    workers := [{ pos := WPos.exited, docYear := some ("100", "2020"),
                  taskDoneFlag := some false, gateWoken := false }],
    ctrl := { count := 1, threshold := 1 },
    live := 0, cancelledSignals := 1, deliveries := 1, settleCalls := 1,
    joined := false }

def c2CancelEvs : List Ev :=
  [Ev.settle 0, Ev.requeue 0 ("100", "2020"), Ev.signal 0,
   Ev.closeBrowser 0, Ev.dereg 0, Ev.reraise 0]

/-- The worker record of `c8Init`. -/
def c8Worker : WorkerSt :=
  { pos := WPos.midScrape, docYear := some ("100", "2020"),
    taskDoneFlag := some false, gateWoken := false }

def c8Final : Sys :=
  { q := { pending := [("101", "2020"), ("100", "2020")], unfinished := 2,
           joinWoken := false },
    workers := [{ pos := WPos.atGate, docYear := some ("100", "2020"),
                  taskDoneFlag := some false, gateWoken := false }],
    ctrl := { count := 1, threshold := 1 },
    live := 1, cancelledSignals := 1, deliveries := 1, settleCalls := 1,
    joined := false }

def c8Evs : List Ev :=
  [Ev.fail 0 FailKind.unknown, Ev.settle 0, Ev.requeue 0 ("100", "2020"),
   Ev.signal 0]

/-- `c4Init` after one poll iteration consuming one failure signal. -/
def c4PollFinal : Sys :=
  { q := { pending := [], unfinished := 0, joinWoken := false },
    workers := [],
    ctrl := { count := 4, threshold := 3 },
    live := 5, cancelledSignals := 2, deliveries := 0, settleCalls := 0,
    joined := false }

/-- Controller state after failures dropped count to 2, below threshold 3. -/
def c4LowInit : Sys := { c4Init with ctrl := { count := 2, threshold := 3 } }

/-- `c4LowInit` after the rotation segment. -/
def c4RotFinal : Sys :=
  { q := { pending := [], unfinished := 0, joinWoken := false },
    workers := [],
    ctrl := { count := 5, threshold := 3 },
    live := 5, cancelledSignals := 3, deliveries := 0, settleCalls := 0,
    joined := false }

/-! ### Helper lemmas -/

theorem flatChunk_length {α : Type} (f : ℕ → ℕ → α) (dr : ℕ) :
    ∀ (n a : ℕ),
      ((List.range' a n).flatMap fun y => (List.range dr).map (f y)).length = n * dr := by
  intro n
  induction n with
  | zero => intro a; simp
  | succ n ih =>
      intro a
      rw [List.range'_succ, List.flatMap_cons, List.length_append, ih]
      simp [Nat.succ_mul, Nat.add_comm]

theorem flatChunk_get {α : Type} (f : ℕ → ℕ → α) (dr : ℕ) :
    ∀ (n a yi k : ℕ), yi < n → k < dr →
      ((List.range' a n).flatMap fun y => (List.range dr).map (f y))[yi * dr + k]? =
        some (f (a + yi) k) := by
  intro n
  induction n with
  | zero => intro a yi k hy; omega
  | succ n ih =>
      intro a yi k hy hk
      rw [List.range'_succ, List.flatMap_cons]
      cases yi with
      | zero =>
          rw [List.getElem?_append_left (by simpa using hk)]
          simp [List.getElem?_map, List.getElem?_range hk]
      | succ yi =>
          have hlen : ((List.range dr).map (f a)).length = dr := by simp
          have hge : ((List.range dr).map (f a)).length ≤ (yi + 1) * dr + k := by
            rw [hlen]; calc dr ≤ (yi + 1) * dr := Nat.le_mul_of_pos_left dr (Nat.succ_pos yi)
              _ ≤ (yi + 1) * dr + k := Nat.le_add_right _ _
          rw [List.getElem?_append_right hge, hlen]
          have hidx : (yi + 1) * dr + k - dr = yi * dr + k := by
            rw [Nat.succ_mul]; omega
          rw [hidx, ih (a + 1) yi k (by omega) hk]
          have : a + 1 + yi = a + (yi + 1) := by omega
          rw [this]

theorem ceilMul_eq_ceil (c n d : ℕ) (hd : 0 < d) :
    (ceilMul c n d : ℤ) = ⌈(c : ℚ) * ((n : ℚ) / (d : ℚ))⌉ := by
  have hq : (c : ℚ) * ((n : ℚ) / (d : ℚ)) = ((c * n : ℕ) : ℚ) / (d : ℚ) := by
    push_cast; ring
  rw [hq]
  have hdq : (0 : ℚ) < (d : ℚ) := by exact_mod_cast hd
  have hdef : ceilMul c n d = (c * n) ⌈/⌉ d := (Nat.ceilDiv_eq_add_pred_div _ _).symm
  rw [hdef]
  refine le_antisymm ?_ ?_
  · have hz : (0 : ℤ) ≤ ⌈((c * n : ℕ) : ℚ) / (d : ℚ)⌉ := by
      refine Int.ceil_nonneg ?_
      positivity
    set z := ⌈((c * n : ℕ) : ℚ) / (d : ℚ)⌉ with hzdef
    have hle : ((c * n : ℕ) : ℚ) / (d : ℚ) ≤ (z : ℚ) := Int.le_ceil _
    have hmul : ((c * n : ℕ) : ℚ) ≤ (z : ℚ) * (d : ℚ) := by
      rwa [div_le_iff₀ hdq] at hle
    have hint : ((c * n : ℕ) : ℤ) ≤ z * (d : ℤ) := by exact_mod_cast hmul
    have hnat : c * n ≤ z.toNat * d := by
      have h2 : ((c * n : ℕ) : ℤ) ≤ ((z.toNat : ℕ) : ℤ) * (d : ℤ) := by
        rwa [Int.toNat_of_nonneg hz]
      exact_mod_cast h2
    have h3 : (c * n) ⌈/⌉ d ≤ z.toNat := by
      rw [ceilDiv_le_iff_le_mul hd]
      calc c * n ≤ z.toNat * d := hnat
        _ = d * z.toNat := Nat.mul_comm _ _
      
    have h4 : (((c * n) ⌈/⌉ d : ℕ) : ℤ) ≤ ((z.toNat : ℕ) : ℤ) := by exact_mod_cast h3
    rw [Int.toNat_of_nonneg hz] at h4
    exact h4
  · rw [Int.ceil_le]
    have h1 : c * n ≤ d * ((c * n) ⌈/⌉ d) := le_smul_ceilDiv hd
    rw [div_le_iff₀ hdq]
    have : ((c * n : ℕ) : ℚ) ≤ ((d * ((c * n) ⌈/⌉ d) : ℕ) : ℚ) := by exact_mod_cast h1
    push_cast at this ⊢
    linarith

theorem rotateVpn_some (oracle : ℕ → Bool) :
    ∀ (fuel a k : ℕ), rotateVpn oracle fuel a = some k →
      oracle k = true ∧ a ≤ k ∧ ∀ j, a ≤ j → j < k → oracle j = false := by
  intro fuel
  induction fuel with
  | zero => intro a k h; simp [rotateVpn] at h
  | succ fuel ih =>
      intro a k h
      rw [rotateVpn] at h
      by_cases ho : oracle a = true
      · rw [if_pos ho] at h
        obtain rfl : a = k := by simpa using h
        exact ⟨ho, Nat.le_refl _, fun j hj1 hj2 => by omega⟩
      · rw [if_neg ho] at h
        obtain ⟨h1, h2, h3⟩ := ih (a + 1) k h
        refine ⟨h1, by omega, fun j hj1 hj2 => ?_⟩
        rcases Nat.eq_or_lt_of_le hj1 with rfl | hlt
        · simpa using ho
        · exact h3 j hlt hj2

theorem rotateVpn_first_success (oracle : ℕ → Bool) :
    ∀ (fuel a n : ℕ), a ≤ n → n < a + fuel → oracle n = true →
      (∀ j, a ≤ j → j < n → oracle j = false) →
      rotateVpn oracle fuel a = some n := by
  intro fuel
  induction fuel with
  | zero => intro a n h1 h2; omega
  | succ fuel ih =>
      intro a n h1 h2 h3 h4
      rw [rotateVpn]
      rcases Nat.eq_or_lt_of_le h1 with rfl | hlt
      · rw [if_pos h3]
      · rw [if_neg (by simp [h4 a (Nat.le_refl a) hlt])]
        exact ih (a + 1) n hlt (by omega) h3 fun j hj1 hj2 => h4 j (by omega) hj2

/-- Final rotation-in-flight flag after scanning an event list. -/
def rotFlag : Bool → List Ev → Bool
  | r, [] => r
  | _, Ev.rotStart :: rest => rotFlag true rest
  | _, Ev.rotEnd :: rest => rotFlag false rest
  | r, _ :: rest => rotFlag r rest

theorem scanRotOk_append (l1 : List Ev) :
    ∀ (r : Bool) (l2 : List Ev),
      scanRotOk r (l1 ++ l2) = (scanRotOk r l1 && scanRotOk (rotFlag r l1) l2) := by
  induction l1 with
  | nil => intro r l2; simp [scanRotOk, rotFlag]
  | cons e rest ih =>
      intro r l2
      cases e <;> simp [scanRotOk, rotFlag, ih, Bool.and_assoc]

theorem stepFn_scanRotOk (cfg : Cfg) (s : Sys) (a : Act) (s1 : Sys) (evs : List Ev)
    (h : stepFn cfg s a = some (s1, evs)) :
    scanRotOk false evs = true ∧ rotFlag false evs = false := by
  cases a <;> rw [stepFn] at h <;> (repeat' split at h) <;>
    first
    | exact Option.noConfusion h
    | (injection h with h1; injection h1 with h2 h3; subst h3; exact ⟨rfl, rfl⟩)

theorem runScript_scanRotOk (cfg : Cfg) :
    ∀ (script : List Act) (s sF : Sys) (evs : List Ev),
      runScript cfg s script = some (sF, evs) → scanRotOk false evs = true := by
  intro script
  induction script with
  | nil =>
      intro s sF evs h
      rw [runScript] at h
      injection h with h1
      injection h1 with h2 h3
      subst h3
      rfl
  | cons a rest ih =>
      intro s sF evs h
      rw [runScript] at h
      split at h
      · exact Option.noConfusion h
      · rename_i s1 evs1 hstep
        split at h
        · exact Option.noConfusion h
        · rename_i s2 evs2 hrest
          injection h with h1
          injection h1 with h2 h3
          subst h3
          obtain ⟨hscan1, hflag1⟩ := stepFn_scanRotOk cfg s a s1 evs1 hstep
          have hscan2 := ih s1 s2 evs2 hrest
          rw [scanRotOk_append, hscan1, hflag1, hscan2]
          rfl

/-! ### Claim theorems -/

/-- C7: The orchestrator enqueues work items in year-major, offset-minor
order: for each year from the start year through the end year inclusive,
and for each offset in [0, range), it emits
(documentIdStart + offset, year); concretely, range 3, years 2020-2021,
start 100 yields the six items in that order. -/
theorem generator_year_major_offset_minor
    (since nowY docRange docStart yi k : ℕ)
    (hy : yi < nowY + 1 - since) (hk : k < docRange) :
    (genItems since nowY docRange docStart).length = (nowY + 1 - since) * docRange ∧
    (genItems since nowY docRange docStart)[yi * docRange + k]? =
      some (toString (docStart + k), toString (since + yi)) ∧
    genItems 2020 2021 3 100 =
      [("100", "2020"), ("101", "2020"), ("102", "2020"),
       ("100", "2021"), ("101", "2021"), ("102", "2021")] := by
  refine ⟨?_, ?_, by decide⟩
  · exact flatChunk_length (fun y i => (toString (docStart + i), toString y))
      docRange (nowY + 1 - since) since
  · exact flatChunk_get (fun y i => (toString (docStart + i), toString y))
      docRange (nowY + 1 - since) since yi k hy hk

theorem generator_year_major_offset_minor_witness :
    (1 < 2021 + 1 - 2020 ∧ 2 < 3) ∧
    ((genItems 2020 2021 3 100).length = (2021 + 1 - 2020) * 3 ∧
      (genItems 2020 2021 3 100)[1 * 3 + 2]? =
        some (toString (100 + 2), toString (2020 + 1)) ∧
      genItems 2020 2021 3 100 =
        [("100", "2020"), ("101", "2020"), ("102", "2020"),
         ("100", "2021"), ("101", "2021"), ("102", "2021")]) :=
  ⟨by decide,
   generator_year_major_offset_minor 2020 2021 3 100 1 2 (by decide) (by decide)⟩

/-- C9: The identity-rotation operation (`rotate_vpn`) returns only after
the external connect call succeeds; every failed connect attempt is
swallowed and retried with no upper bound on the number of retries, and
no failure is surfaced to the caller. -/
theorem rotate_vpn_returns_only_after_connect_success
    (oracle : ℕ → Bool) (fuel a k n : ℕ) :
    (rotateVpn oracle fuel a = some k →
      oracle k = true ∧ a ≤ k ∧ ∀ j, a ≤ j → j < k → oracle j = false) ∧
    (oracle n = true → (∀ j, j < n → oracle j = false) →
      rotateVpn oracle (n + 1) 0 = some n) := by
  constructor
  · exact rotateVpn_some oracle fuel a k
  · intro h1 h2
    exact rotateVpn_first_success oracle (n + 1) 0 n (Nat.zero_le n)
      (by omega) h1 (fun j _ => h2 j)

theorem rotate_vpn_returns_only_after_connect_success_witness :
    ((fun j => decide (2 ≤ j)) 2 = true ∧
      rotateVpn (fun j => decide (2 ≤ j)) 3 0 = some 2) :=
  ⟨by decide,
   (rotate_vpn_returns_only_after_connect_success (fun j => decide (2 ≤ j))
      3 0 2 2).2 (by decide) (by decide)⟩

/-- C10: Before any worker task is spawned, the orchestrator performs one
identity rotation and awaits its completion: in both entry points every
occurrence of a worker spawn in the toplevel action sequence is strictly
preceded by the first awaited rotation. -/
theorem first_rotation_precedes_worker_spawn (n : ℕ) (p : Bool) (k : ℕ) :
    ((appMainActions n p)[k]? = some MainAct.spawnWorker →
      (appMainActions n p)[2]? = some MainAct.rotateFirst ∧ 2 < k) ∧
    ((runFormMainActions n)[k]? = some MainAct.spawnWorker →
      (runFormMainActions n)[1]? = some MainAct.rotateFirst ∧ 1 < k) := by
  constructor
  · intro h
    match k with
    | 0 => simp [appMainActions] at h
    | 1 => simp [appMainActions] at h
    | 2 => simp [appMainActions] at h
    | (k + 3) => exact ⟨by simp [appMainActions], by omega⟩
  · intro h
    match k with
    | 0 => simp [runFormMainActions] at h
    | 1 => simp [runFormMainActions] at h
    | 2 => simp [runFormMainActions] at h
    | 3 => simp [runFormMainActions] at h
    | 4 => simp [runFormMainActions] at h
    | (k + 5) => exact ⟨by simp [runFormMainActions], by omega⟩

theorem first_rotation_precedes_worker_spawn_witness :
    ((appMainActions 5 true)[3]? = some MainAct.spawnWorker) ∧
    ((appMainActions 5 true)[2]? = some MainAct.rotateFirst ∧ 2 < 3) :=
  ⟨by decide, (first_rotation_precedes_worker_spawn 5 true 3).1 (by decide)⟩

/-- C5: No dequeue operation completes between the start of an identity
rotation and its completion: `rotate_vpn` contains no suspension point,
so the rotation is one atomic scheduler segment, the Gate stays closed
(no pulse) throughout it, and in every trace no dequeue, scrape outcome,
settle, requeue, or gate pulse occurs strictly between `rotStart` and the
matching `rotEnd`. -/
theorem no_dequeue_between_rotation_start_and_end
    (cfg : Cfg) (script : List Act) (s sF : Sys) (evs : List Ev)
    (h : runScript cfg s script = some (sF, evs)) :
    scanRotOk false evs = true :=
  runScript_scanRotOk cfg script s sF evs h

theorem no_dequeue_between_rotation_start_and_end_witness :
    (runScript cfgJF (initSys cfgJF [("100", "2020")] 1) c5Script =
      some (c6Final, c6Evs)) ∧
    scanRotOk false c6Evs = true :=
  ⟨by decide,
   no_dequeue_between_rotation_start_and_end cfgJF c5Script
     (initSys cfgJF [("100", "2020")] 1) c6Final c6Evs (by decide)⟩


/-- C1 (code bug): with one worker and one generated item whose single
scrape attempt times out, the failure handler calls `task_done()` before
re-`put`-ing the item (worker.py:228-229), which momentarily drops the
queue's unfinished count to zero and wakes the parked
`await input_queue.join()` (app.py:135); the drain resolves while the
requeued item is still pending and never successfully settled, so the
drain-wait does not complete "iff exactly N items have been settled". -/
theorem drain_wait_resolves_with_item_still_pending :
    runScript cfgJF (initSys cfgJF [("100", "2020")] 1) c1Script =
      some (c1Final, c1Evs) ∧
    c1Final.joined = true ∧
    c1Final.q.pending = [("100", "2020")] ∧
    c1Final.q.unfinished = 1 :=
  ⟨by decide, by decide, by decide, by decide⟩

/-- C2: A worker cancelled mid-scrape while holding a dequeued-but-unsettled
item (task_done flag False, document/year set) requeues that item exactly
once — the handler's event sequence contains the single requeue, ordered
before the browser close, the deregistration, and the cancellation
re-raise — and the worker exits with the live worker count decremented. -/
theorem cancel_midscrape_requeues_exactly_once
    (cfg : Cfg) (s s1 : Sys) (evs : List Ev) (i : ℕ) (w : WorkerSt) (x : WorkItem)
    (hw : s.workers[i]? = some w) (hpos : w.pos = WPos.midScrape)
    (hdoc : w.docYear = some x) (hflag : w.taskDoneFlag = some false)
    (h : stepFn cfg s (Act.cancel i) = some (s1, evs)) :
    evs = [Ev.settle i, Ev.requeue i x, Ev.signal i,
           Ev.closeBrowser i, Ev.dereg i, Ev.reraise i] ∧
    evs.filter isRequeueEv = [Ev.requeue i x] ∧
    s1.q = (s.q.taskDoneOp).putOp x ∧
    s1.workers = s.workers.set i { w with pos := WPos.exited } ∧
    s1.live = s.live - 1 := by
  rw [stepFn, hw] at h
  dsimp only at h
  rw [if_neg (by rw [hpos]; exact fun hc => WPos.noConfusion hc)] at h
  rw [hflag, hdoc] at h
  dsimp only at h
  injection h with h1
  injection h1 with h2 h3
  subst h3
  subst h2
  refine ⟨rfl, by simp [List.filter, isRequeueEv], rfl, ?_, rfl⟩
  rw [hdoc, hflag]

theorem cancel_midscrape_requeues_exactly_once_witness :
    (c2Init.workers[0]? = some c2Worker ∧
     c2Worker.pos = WPos.midScrape ∧
     c2Worker.docYear = some ("100", "2020") ∧
     c2Worker.taskDoneFlag = some false ∧
     stepFn cfgJF c2Init (Act.cancel 0) = some (c2CancelFinal, c2CancelEvs)) ∧
    (c2CancelEvs = [Ev.settle 0, Ev.requeue 0 ("100", "2020"), Ev.signal 0,
                    Ev.closeBrowser 0, Ev.dereg 0, Ev.reraise 0] ∧
     c2CancelEvs.filter isRequeueEv = [Ev.requeue 0 ("100", "2020")] ∧
     c2CancelFinal.q = (c2Init.q.taskDoneOp).putOp ("100", "2020") ∧
     c2CancelFinal.workers = c2Init.workers.set 0 { c2Worker with pos := WPos.exited } ∧
     c2CancelFinal.live = c2Init.live - 1) :=
  ⟨⟨by decide, by decide, by decide, by decide, by decide⟩,
   cancel_midscrape_requeues_exactly_once cfgJF c2Init c2CancelFinal
     c2CancelEvs 0 c2Worker ("100", "2020")
     (by decide) (by decide) (by decide) (by decide) (by decide)⟩

/-- C3 (code bug): with two items, a worker that settles the first item
successfully and is then cancelled while parked at the gate wait performs
a second `task_done()` and requeues the already-settled item: the
`task_done` flag was reset to False at the top of the loop before the
gate wait and `document_number`/`year` still hold the previous item
(worker.py:86, 239-243), so the run shows 2 settle calls against only 1
delivery — the single delivery is settled twice and the settled item
re-enters the queue. -/
theorem cancelled_worker_settles_delivery_twice :
    runScript cfgJF (initSys cfgJF [("100", "2020"), ("101", "2020")] 1)
      c3Script = some (c3Final, c3Evs) ∧
    c3Final.settleCalls = 2 ∧
    c3Final.deliveries = 1 ∧
    c3Evs.filter isSettleEv = [Ev.settle 0, Ev.settle 0] ∧
    c3Evs.filter isDeqEv = [Ev.deq 0 ("100", "2020")] :=
  ⟨by decide, by decide, by decide, by decide, by decide⟩

/-- C4: With threshold = ceil(workerCount * failureRatio) (ceilMul agrees
with the rational ceiling), the controller polls only while
count >= threshold, a rotation step is enabled exactly when count has
dropped below threshold, and in the spec's instance (5 workers, ratio
0.6, threshold 3) failures reduce count to 2 and exactly one rotation
fires, after which count/threshold reset to 5/3 and no further rotation
is enabled. -/
theorem rotation_threshold_and_trigger (cfg : Cfg) (s : Sys) :
    ((ceilMul 5 3 5 : ℤ) = 3) ∧
    (∀ c n d : ℕ, 0 < d → (ceilMul c n d : ℤ) = ⌈(c : ℚ) * ((n : ℚ) / (d : ℚ))⌉) ∧
    (∀ r, stepFn cfg s Act.poll = some r → s.ctrl.threshold ≤ s.ctrl.count) ∧
    (∀ r, stepFn cfg s Act.rot = some r → s.ctrl.count < s.ctrl.threshold) ∧
    (s.ctrl.count < s.ctrl.threshold →
      stepFn cfg s Act.poll = none ∧ (stepFn cfg s Act.rot).isSome = true) ∧
    (runScript cfgJF c4Init [Act.poll, Act.poll, Act.poll, Act.rot] =
        some (c4Final, c4Evs) ∧
      (runScript cfgJF c4Init [Act.poll, Act.poll, Act.poll]).map
          (fun p => p.1.ctrl.count) = some 2 ∧
      c4Evs.count Ev.rotStart = 1 ∧
      c4Final.ctrl = { count := 5, threshold := 3 } ∧
      stepFn cfgJF c4Final Act.rot = none) := by
  refine ⟨by decide, ?_, ?_, ?_, ?_,
    by decide, by decide, by decide, by decide, by decide⟩
  · intro c n d hd
    exact ceilMul_eq_ceil c n d hd
  · intro r h
    by_contra hc
    rw [stepFn, if_neg hc] at h
    exact Option.noConfusion h
  · intro r h
    by_contra hc
    rw [stepFn, if_neg hc] at h
    exact Option.noConfusion h
  · intro hlt
    constructor
    · rw [stepFn, if_neg (not_le.mpr hlt)]
    · rw [stepFn, if_pos hlt]
      rfl

theorem rotation_threshold_and_trigger_witness :
    ((ceilMul 5 3 5 : ℤ) = ⌈((5 : ℕ) : ℚ) * (((3 : ℕ) : ℚ) / ((5 : ℕ) : ℚ))⌉) ∧
    (c4Init.ctrl.threshold ≤ c4Init.ctrl.count) ∧
    (c4LowInit.ctrl.count < c4LowInit.ctrl.threshold) ∧
    (stepFn cfgJF c4LowInit Act.poll = none ∧
      (stepFn cfgJF c4LowInit Act.rot).isSome = true) :=
  ⟨(rotation_threshold_and_trigger cfgJF c4Init).2.1 5 3 5 (by decide),
   (rotation_threshold_and_trigger cfgJF c4Init).2.2.1
     (c4PollFinal, [Ev.gatePulse]) (by decide),
   by decide,
   (rotation_threshold_and_trigger cfgJF c4LowInit).2.2.2.2.1 (by decide)⟩

/-- C6 counterexample: on a concrete run reaching a rotation, a
reset-of-count/threshold event occurs strictly before the first completed
rotation (`rotEnd`): sync_workers re-reads `count = get_num_workers()`
and recomputes the threshold (worker.py:64-65) and only then awaits
`rotate_vpn()` (worker.py:66), so the reset is not performed after the
rotation collaborator's connect call has succeeded. -/
theorem reset_occurs_before_rotation_completes :
    runScript cfgJF (initSys cfgJF [("100", "2020")] 1) c6Script =
      some (c6Final, c6Evs) ∧
    (c6Evs.takeWhile fun e => !(isRotEnd e)).any isReset = true ∧
    c6Evs.count Ev.rotEnd = 1 :=
  ⟨by decide, by decide, by decide⟩

/-- C6 amended: when count drops below threshold, sync_workers first
resets count and threshold from the live worker count read immediately
before issuing the rotation call, then performs the rotation within the
same atomic segment; the Gate can reopen (next pulse) only after the
rotation segment returns. -/
theorem rotation_step_resets_then_rotates
    (cfg : Cfg) (s s1 : Sys) (evs : List Ev)
    (h : stepFn cfg s Act.rot = some (s1, evs)) :
    s.ctrl.count < s.ctrl.threshold ∧
    evs = [Ev.reset s.live (ceilMul s.live cfg.num cfg.den : ℤ),
           Ev.rotStart, Ev.rotEnd] ∧
    s1.ctrl.count = (s.live : ℤ) ∧
    s1.ctrl.threshold = (ceilMul s.live cfg.num cfg.den : ℤ) ∧
    s1.live = s.live ∧
    s1.q = s.q := by
  rw [stepFn] at h
  split at h
  · rename_i hc
    injection h with h1
    injection h1 with h2 h3
    subst h3
    subst h2
    exact ⟨hc, rfl, rfl, rfl, rfl, rfl⟩
  · exact Option.noConfusion h

theorem rotation_step_resets_then_rotates_witness :
    (stepFn cfgJF c4LowInit Act.rot =
      some (c4RotFinal, [Ev.reset 5 3, Ev.rotStart, Ev.rotEnd])) ∧
    (c4LowInit.ctrl.count < c4LowInit.ctrl.threshold ∧
     [Ev.reset 5 3, Ev.rotStart, Ev.rotEnd] =
       [Ev.reset c4LowInit.live (ceilMul c4LowInit.live cfgJF.num cfgJF.den : ℤ),
        Ev.rotStart, Ev.rotEnd] ∧
     c4RotFinal.ctrl.count = (c4LowInit.live : ℤ) ∧
     c4RotFinal.ctrl.threshold = (ceilMul c4LowInit.live cfgJF.num cfgJF.den : ℤ) ∧
     c4RotFinal.live = c4LowInit.live ∧
     c4RotFinal.q = c4LowInit.q) :=
  ⟨by decide,
   rotation_step_resets_then_rotates cfgJF c4LowInit c4RotFinal
     [Ev.reset 5 3, Ev.rotStart, Ev.rotEnd] (by decide)⟩

/-- C8: On every scrape failure of either class the worker requeues the
same item unchanged, marks the consumed delivery settled, and signals the
controller exactly once; the worker returns to the top of its loop (no
escalation, live count unchanged), and each consumed signal decrements
the controller's count by one. -/
theorem scrape_failure_requeues_settles_signals_once
    (cfg : Cfg) (s s1 : Sys) (evs : List Ev) (i : ℕ) (k : FailKind)
    (w : WorkerSt) (x : WorkItem)
    (hw : s.workers[i]? = some w) (hdoc : w.docYear = some x)
    (h : stepFn cfg s (Act.failWith i k) = some (s1, evs)) :
    evs = [Ev.fail i k, Ev.settle i, Ev.requeue i x, Ev.signal i] ∧
    evs.filter isRequeueEv = [Ev.requeue i x] ∧
    s1.q = (s.q.taskDoneOp).putOp x ∧
    s1.cancelledSignals = s.cancelledSignals + 1 ∧
    s1.workers = s.workers.set i
      { w with pos := WPos.atGate, taskDoneFlag := some false } ∧
    s1.live = s.live ∧
    (∀ t t1 pevs, stepFn cfg t Act.poll = some (t1, pevs) →
      0 < t.cancelledSignals →
      t1.ctrl.count = t.ctrl.count - 1 ∧
      t1.cancelledSignals = t.cancelledSignals - 1) := by
  rw [stepFn, hw] at h
  dsimp only at h
  rw [hdoc] at h
  dsimp only at h
  split at h
  · injection h with h1
    injection h1 with h2 h3
    subst h3
    subst h2
    refine ⟨rfl, by simp [List.filter, isRequeueEv], rfl, rfl, ?_, rfl, ?_⟩
    · rw [hdoc]
    · intro t t1 pevs hp hsig
      by_cases hc1 : t.ctrl.threshold ≤ t.ctrl.count
      · rw [stepFn, if_pos hc1, if_pos hsig] at hp
        injection hp with hp1
        injection hp1 with hp2 hp3
        subst hp2
        exact ⟨rfl, rfl⟩
      · rw [stepFn, if_neg hc1] at hp
        exact Option.noConfusion hp
  · exact Option.noConfusion h

theorem scrape_failure_requeues_settles_signals_once_witness :
    (c8Init.workers[0]? = some c8Worker ∧
     c8Worker.docYear = some ("100", "2020") ∧
     stepFn cfgJF c8Init (Act.failWith 0 FailKind.unknown) =
       some (c8Final, c8Evs)) ∧
    c8Evs = [Ev.fail 0 FailKind.unknown, Ev.settle 0,
             Ev.requeue 0 ("100", "2020"), Ev.signal 0] :=
  ⟨⟨by decide, by decide, by decide⟩,
   (scrape_failure_requeues_settles_signals_once cfgJF c8Init c8Final c8Evs
      0 FailKind.unknown c8Worker ("100", "2020")
      (by decide) (by decide) (by decide)).1⟩
